import Mathlib

/-!
Verification of the FinanceAnalyzer statement-parsing and analysis core.

This file shallowly embeds the Python sources of the repository:
  * `backEnd/Core/analyzer/tax_calculator.py`
  * `backEnd/Core/analyzer/expense_analyzer.py`
  * `backEnd/Core/analyzer/income_analyzer.py`
  * `backEnd/Core/parser/kaspi_parser.py`
  * `backEnd/Core/parser/base_parser.py`
  * the processing flow of `backEnd/Controllers/analysis_controller.py`

Python floats are modelled as exact rationals (`ℚ`).  Python strings are
modelled as Lean `String`s, with all character-level work done on `List Char`
so that every definition evaluates by kernel reduction.  Python dict rows are
modelled as association lists from column name to a cell value.
-/

namespace FinanceAnalyzer

/-! ### Character and string utilities (model of Python `str` operations) -/

/-- Model of Python `str.lower()` for the character sets this code base uses:
ASCII letters and the Cyrillic block `А`..`Я` plus `Ё`. -/
def lowerChar (c : Char) : Char :=
  if 'A' ≤ c ∧ c ≤ 'Z' then Char.ofNat (c.toNat + 32)
  else if 'А' ≤ c ∧ c ≤ 'Я' then Char.ofNat (c.toNat + 32)
  else if c = 'Ё' then 'ё'
  else c

/-- Function `lowerStr s` models Python `s.lower()`. -/
def lowerStr (s : String) : String := String.mk (s.toList.map lowerChar)

/-- Predicate `listLeads pat l` is true when `pat` is an initial segment of `l`. -/
def listLeads : List Char → List Char → Bool
  | [], _ => true
  | _ :: _, [] => false
  | a :: as, b :: bs => a == b && listLeads as bs

/-- Predicate `hasSub pat l` is true when `pat` occurs contiguously inside `l`. -/
def hasSub (pat : List Char) : List Char → Bool
  | [] => listLeads pat []
  | c :: rest => listLeads pat (c :: rest) || hasSub pat rest

/-- Predicate `occursIn kw s` models the Python substring test `kw in s`. -/
def occursIn (kw s : String) : Bool := hasSub kw.toList s.toList

/-- Predicate `containsAny s kws` models `any(keyword in s for keyword in kws)`. -/
def containsAny (s : String) (kws : List String) : Bool :=
  kws.any (fun k => occursIn k s)

/-- Keep only the characters satisfying `p` (model of `re.sub` deletion). -/
def filterChars (p : Char → Bool) (s : String) : String :=
  String.mk (s.toList.filter p)

/-- Replace every occurrence of the character `a` by `b`
(model of Python `str.replace` on single characters). -/
def replaceChar (a b : Char) (s : String) : String :=
  String.mk (s.toList.map (fun c => if c == a then b else c))

/-- Model of Python `str.strip()`: drop whitespace from both ends. -/
def stripStr (s : String) : String :=
  String.mk (((s.toList.dropWhile Char.isWhitespace).reverse.dropWhile
      Char.isWhitespace).reverse)

/-- Split a character list at every occurrence of `sep`
(model of Python `str.split(sep)` for a one-character separator). -/
def splitOnCharAux (sep : Char) : List Char → List Char → List (List Char)
  | [], acc => [acc.reverse]
  | c :: cs, acc =>
      if c == sep then acc.reverse :: splitOnCharAux sep cs []
      else splitOnCharAux sep cs (c :: acc)

/-- Function `splitOnChar sep s` returns the fields of `s` separated by `sep`. -/
def splitOnChar (sep : Char) (s : String) : List String :=
  (splitOnCharAux sep s.toList []).map String.mk

/-! ### Model of Python `float(...)` on numeric literals

`pyFloatMag` parses an unsigned float literal
(`digits [ . digits? ] | . digits`, with an optional exponent part); it is the
grammar `float()` accepts after an optional sign.  Underscore digit
separators, `inf`/`nan` literals and surrounding whitespace other than what
callers already removed are not reachable from the inputs this code feeds to
`float` and are handled separately where needed. -/

/-- Numeric value of a digit list (most significant first). -/
def digitsVal (cs : List Char) : Nat :=
  cs.foldl (fun n c => n * 10 + (c.toNat - '0'.toNat)) 0

/-- Split a character list into its leading digit span and the rest. -/
def digitSpan : List Char → List Char × List Char
  | [] => ([], [])
  | c :: cs =>
      if c.isDigit then
        let r := digitSpan cs
        (c :: r.1, r.2)
      else ([], c :: cs)

/-- Parse the optional exponent suffix `([eE] [+-]? digits)?`;
returns the exponent as an integer, or `none` if the suffix is malformed. -/
def parseExpPart : List Char → Option Int
  | [] => some 0
  | e :: rest =>
      if e == 'e' || e == 'E' then
        match rest with
        | '+' :: rest2 =>
            let r := digitSpan rest2
            if r.1 ≠ [] ∧ r.2 = [] then some (Int.ofNat (digitsVal r.1)) else none
        | '-' :: rest2 =>
            let r := digitSpan rest2
            if r.1 ≠ [] ∧ r.2 = [] then some (-(Int.ofNat (digitsVal r.1))) else none
        | _ =>
            let r := digitSpan rest
            if r.1 ≠ [] ∧ r.2 = [] then some (Int.ofNat (digitsVal r.1)) else none
      else none

/-- Unsigned mantissa-with-exponent value, or `none` when malformed. -/
def pyFloatMag (cs : List Char) : Option ℚ :=
  match (digitSpan cs).2 with
  | '.' :: rest =>
      if (digitSpan cs).1 = [] ∧ (digitSpan rest).1 = [] then none
      else
        match parseExpPart (digitSpan rest).2 with
        | some e =>
            some ((((digitsVal (digitSpan cs).1 : ℚ) +
              (digitsVal (digitSpan rest).1 : ℚ) /
                ((10 : ℚ) ^ (digitSpan rest).1.length)) * (10 : ℚ) ^ e))
        | none => none
  | _ =>
      if (digitSpan cs).1 = [] then none
      else
        match parseExpPart (digitSpan cs).2 with
        | some e => some ((digitsVal (digitSpan cs).1 : ℚ) * (10 : ℚ) ^ e)
        | none => none

/-- Model of Python `float(s)` for the literal grammar with optional sign. -/
def pyFloat (s : String) : Option ℚ :=
  match s.toList with
  | '-' :: cs => (pyFloatMag cs).map (fun q => -q)
  | '+' :: cs => pyFloatMag cs
  | cs => pyFloatMag cs

/-! ### Dates

Model of `datetime` values and of `datetime.strptime` for the three formats
the parsers try: `"%d.%m.%Y"`, `"%Y-%m-%d"`, `"%d/%m/%Y"`. -/

structure DateT where
  year : Nat
  month : Nat
  day : Nat
deriving Repr, DecidableEq

/-- Gregorian leap-year test. -/
def isLeap (y : Nat) : Bool := y % 4 = 0 && (y % 100 ≠ 0 || y % 400 = 0)

/-- Days in a month, as validated by `datetime`. -/
def daysInMonth (y m : Nat) : Nat :=
  if m = 2 then (if isLeap y then 29 else 28)
  else if m = 4 ∨ m = 6 ∨ m = 9 ∨ m = 11 then 30
  else 31

/-- Validation of `datetime(year, month, day)`: `strptime` raises `ValueError`
on out-of-range components. -/
def mkDate (y m d : Nat) : Option DateT :=
  if 1 ≤ y ∧ 1 ≤ m ∧ m ≤ 12 ∧ 1 ≤ d ∧ d ≤ daysInMonth y m then
    some ⟨y, m, d⟩
  else none

/-- A one-or-two-digit field (`strptime` `%d`/`%m` accept unpadded values). -/
def parseField2 (s : String) : Option Nat :=
  match s.toList with
  | [c] => if c.isDigit then some (digitsVal [c]) else none
  | [c1, c2] => if c1.isDigit && c2.isDigit then some (digitsVal [c1, c2]) else none
  | _ => none

/-- An exactly-four-digit year field (`strptime` `%Y`). -/
def parseField4 (s : String) : Option Nat :=
  match s.toList with
  | [c1, c2, c3, c4] =>
      if c1.isDigit && c2.isDigit && c3.isDigit && c4.isDigit then
        some (digitsVal [c1, c2, c3, c4])
      else none
  | _ => none

/-- Model of `strptime(s, "%d<sep>%m<sep>%Y")` for a one-character separator. -/
def parseDMY (sep : Char) (s : String) : Option DateT :=
  match splitOnChar sep s with
  | [ds, ms, ys] =>
      match parseField2 ds, parseField2 ms, parseField4 ys with
      | some d, some m, some y => mkDate y m d
      | _, _, _ => none
  | _ => none

/-- Model of `strptime(s, "%Y-%m-%d")`. -/
def parseYMD (s : String) : Option DateT :=
  match splitOnChar '-' s with
  | [ys, ms, ds] =>
      match parseField4 ys, parseField2 ms, parseField2 ds with
      | some y, some m, some d => mkDate y m d
      | _, _, _ => none
  | _ => none

/-- The date-format fallback chain of the Excel/CSV row loop:
`["%d.%m.%Y", "%Y-%m-%d", "%d/%m/%Y"]`, first successful parse wins. -/
def parseDateFormats (s : String) : Option DateT :=
  match parseDMY '.' s with
  | some d => some d
  | none =>
      match parseYMD s with
      | some d => some d
      | none => parseDMY '/' s

/-- Model of `strftime("%Y-%m")`: the zero-padded month key used by the by-month buckets. -/
def padNat (width n : Nat) : String :=
  let s := toString n
  String.mk (List.replicate (width - s.length) '0') ++ s

def monthKey (d : DateT) : String := padNat 4 d.year ++ "-" ++ padNat 2 d.month

/-! ### Tax calculator (`backEnd/Core/analyzer/tax_calculator.py`) -/

/-- Table `DEFAULT_TAX_RATES` from `backEnd/config.py`. -/
def DEFAULT_TAX_RATES : List (String × ℚ) :=
  [("ip_simplified", 3), ("ip_general", 10), ("too_simplified", 3), ("too_general", 20)]

/-- Python `dict.get(key, default)` on an association list. -/
def dictGetD (m : List (String × ℚ)) (k : String) (default : ℚ) : ℚ :=
  match m.find? (fun p => p.1 == k) with
  | some p => p.2
  | none => default

/-- Result dict of `calculate_tax`. -/
structure TaxResult where
  tax_regime : String
  tax_rate : ℚ
  tax_base : ℚ
  tax_amount : ℚ
  effective_tax_rate : ℚ
  income : ℚ
  expense : ℚ
  profit : ℚ
deriving Repr, DecidableEq

/-- Function `calculate_tax(income, expense, tax_regime)` from `tax_calculator.py`. -/
def calculate_tax (income expense : ℚ) (tax_regime : String) : TaxResult :=
  let tax_rate := dictGetD DEFAULT_TAX_RATES tax_regime 3
  let tax_base :=
    if tax_regime == "ip_simplified" || tax_regime == "too_simplified" then income
    else max 0 (income - expense)
  let tax_amount := tax_base * (tax_rate / 100)
  let effective_tax_rate := if 0 < income then (tax_amount / income) * 100 else 0
  { tax_regime := tax_regime
    tax_rate := tax_rate
    tax_base := tax_base
    tax_amount := tax_amount
    effective_tax_rate := effective_tax_rate
    income := income
    expense := expense
    profit := income - expense }

end FinanceAnalyzer

namespace FinanceAnalyzer

/-- C5: tax bases, tax amount, and zero-income effective rate. -/
theorem calculate_tax_spec (income expense : ℚ) :
    (calculate_tax income expense "ip_simplified").tax_base = income ∧
    (calculate_tax income expense "too_simplified").tax_base = income ∧
    (calculate_tax income expense "ip_general").tax_base = max 0 (income - expense) ∧
    (calculate_tax income expense "too_general").tax_base = max 0 (income - expense) ∧
    (∀ regime : String,
      (calculate_tax income expense regime).tax_amount =
        (calculate_tax income expense regime).tax_base *
          ((calculate_tax income expense regime).tax_rate / 100)) ∧
    (∀ regime : String, (calculate_tax 0 expense regime).effective_tax_rate = 0) := by
  refine ⟨rfl, rfl, rfl, rfl, fun regime => rfl, fun regime => ?_⟩
  simp [calculate_tax]

/-- C10: an unknown regime string falls back to the default rate `3.0` and the
general-regime base `max 0 (income - expense)`, and a complete result is
returned. -/
theorem calculate_tax_unknown_regime (income expense : ℚ) (regime : String)
    (h1 : regime ≠ "ip_simplified") (h2 : regime ≠ "ip_general")
    (h3 : regime ≠ "too_simplified") (h4 : regime ≠ "too_general") :
    calculate_tax income expense regime =
      { tax_regime := regime
        tax_rate := 3
        tax_base := max 0 (income - expense)
        tax_amount := max 0 (income - expense) * (3 / 100)
        effective_tax_rate :=
          if 0 < income then (max 0 (income - expense) * (3 / 100) / income) * 100 else 0
        income := income
        expense := expense
        profit := income - expense } := by
  have e1 : ("ip_simplified" == regime) = false := by
    simp only [beq_eq_false_iff_ne]; exact Ne.symm h1
  have e2 : ("ip_general" == regime) = false := by
    simp only [beq_eq_false_iff_ne]; exact Ne.symm h2
  have e3 : ("too_simplified" == regime) = false := by
    simp only [beq_eq_false_iff_ne]; exact Ne.symm h3
  have e4 : ("too_general" == regime) = false := by
    simp only [beq_eq_false_iff_ne]; exact Ne.symm h4
  have f1 : (regime == "ip_simplified") = false := by
    simp only [beq_eq_false_iff_ne]; exact h1
  have f3 : (regime == "too_simplified") = false := by
    simp only [beq_eq_false_iff_ne]; exact h3
  simp [calculate_tax, dictGetD, DEFAULT_TAX_RATES, List.find?, e1, e2, e3, e4, f1, f3]

/-- Witness for `calculate_tax_unknown_regime` at the concrete regime
`"patent"`, income `100`, expense `40`. -/
theorem calculate_tax_unknown_regime_witness :
    ("patent" ≠ "ip_simplified" ∧ "patent" ≠ "ip_general" ∧
      "patent" ≠ "too_simplified" ∧ "patent" ≠ "too_general") ∧
    calculate_tax 100 40 "patent" =
      { tax_regime := "patent", tax_rate := 3, tax_base := 60, tax_amount := 9/5,
        effective_tax_rate := 9/5, income := 100, expense := 40, profit := 60 } :=
  ⟨⟨by decide, by decide, by decide, by decide⟩,
    (calculate_tax_unknown_regime 100 40 "patent" (by decide) (by decide)
      (by decide) (by decide)).trans (by norm_num)⟩

/-! ### Transactions and the expense/income analyzers

`backEnd/Core/analyzer/expense_analyzer.py` and
`backEnd/Core/analyzer/income_analyzer.py`.

A transaction dict is modelled as a record.  The parsers always emit the keys
`date`, `description`, `amount`, `is_income`, `reference`, `category_id`; the
analyzers read the dict defensively with `t.get(...)` defaults, so `date`,
`is_income`, `reference` and `category` are `Option`s here (`is_income` in
particular may be absent — claim C9). -/

structure Tx where
  date : Option DateT
  description : String
  amount : ℚ
  is_income : Option Bool
  reference : Option String
  category : Option String
deriving Repr, DecidableEq

/-- The `defaultdict(float)` update `m[k] += v`, preserving insertion order. -/
def addToTable (m : List (String × ℚ)) (k : String) (v : ℚ) : List (String × ℚ) :=
  match m with
  | [] => [(k, v)]
  | (k', v') :: rest =>
      if k' = k then (k', v' + v) :: rest else (k', v') :: addToTable rest k v

/-- Model of `sum(m.values())`. -/
def sumValues (m : List (String × ℚ)) : ℚ := (m.map Prod.snd).sum

/-- Stable descending insertion by a rational key: ties keep the order of the
element being inserted first.  `sortDescBy` below therefore computes exactly
Python's stable `sorted(..., key=..., reverse=True)` (a stable sort's output
is uniquely determined by the key order). -/
def insDescBy (key : α → ℚ) (x : α) : List α → List α
  | [] => [x]
  | y :: ys => if key y ≤ key x then x :: y :: ys else y :: insDescBy key x ys

/-- Model of `sorted(l, key=key, reverse=True)` (stable descending). -/
def sortDescBy (key : α → ℚ) (l : List α) : List α := l.foldr (insDescBy key) []

/-- The keyword table `category_keywords` of `categorize_expenses`
(`expense_analyzer.py`), verbatim, in declaration order. -/
def expense_category_keywords : List (String × List String) :=
  [("Аренда",
    ["аренда", "съем", "rent", "недвижимость", "офис", "помещение"]),
   ("Коммунальные услуги",
    ["коммунальные", "электричество", "вода", "газ", "отопление", "utility",
     "электроэнергия", "жкх", "квартплата"]),
   ("Зарплата",
    ["зарплата", "оклад", "аванс", "заработная плата", "вознаграждение", "платеж",
     "сотрудник", "зп", "з/п", "оплата труда", "salary", "wage"]),
   ("Налоги",
    ["налог", "tax", "сбор", "пошлина", "взнос", "ндс", "подоходный", "енвд",
     "усн", "налог на имущество", "ндфл", "налоговая"]),
   ("Связь и интернет",
    ["телефон", "мобильный", "интернет", "связь", "телеком", "билайн", "мтс",
     "мегафон", "теле2", "beeline", "telephone", "internet", "сотовый", "роутер",
     "хостинг", "domain"]),
   ("Канцелярские товары",
    ["канцелярия", "канцтовары", "бумага", "ручки", "office supplies", "канц",
     "печать", "принтер", "заправка картриджа", "тонер", "картридж"]),
   ("Транспортные расходы",
    ["транспорт", "такси", "проезд", "доставка", "transport", "яндекс такси",
     "uber", "убер", "перевозка", "логистика", "топливо", "бензин", "дизель",
     "гсм"]),
   ("Маркетинг и реклама",
    ["реклама", "маркетинг", "продвижение", "advertising", "marketing", "реклама",
     "smm", "пиар", "pr", "контекст", "таргет", "target", "рекламная кампания",
     "рекламный", "размещение рекламы"]),
   ("Закупка товаров",
    ["товар", "закупка", "поставка", "запасы", "supply", "purchase", "закуп",
     "поставщик", "опт", "wholesale", "оптовый", "материалы", "сырьё", "сырье",
     "партия товара"]),
   ("Программное обеспечение",
    ["программное обеспечение", "software", "софт", "лицензия", "license",
     "подписка", "subscription", "облако", "cloud", "saas", "сервис", "продление",
     "renewal"]),
   ("Оборудование",
    ["оборудование", "компьютер", "ноутбук", "принтер", "hardware", "устройство",
     "техника", "equipment", "монитор", "сервер", "устройство", "гаджет",
     "оргтехника"]),
   ("Обучение и развитие",
    ["обучение", "курс", "тренинг", "семинар", "education", "training",
     "повышение квалификации", "development", "conference", "конференция",
     "вебинар", "мастер-класс", "workshop"]),
   ("Питание",
    ["питание", "еда", "продукты", "food", "обед", "ресторан", "кафе", "столовая",
     "перекус", "lunch", "кофе", "coffee", "meal", "ужин", "завтрак"]),
   ("Представительские расходы",
    ["представительские", "деловая встреча", "business meeting", "клиент",
     "переговоры", "ресторан", "банкет", "entertainment", "мероприятие", "event",
     "hospitality"])]

/-- The keyword table `source_keywords` of `analyze_income_sources`
(`income_analyzer.py`), verbatim, in declaration order. -/
def source_keywords : List (String × List String) :=
  [("Заработная плата",
    ["зарплата", "заработная плата", "оклад", "аванс", "зп ", "з/п", "выплата",
     "зар.плата", "зар плата", "salary", "wage", "payroll"]),
   ("Перевод",
    ["перевод", "transfer", "переведено", "поступление", "зачисление", "p2p",
     "перевод от"]),
   ("Возврат",
    ["возврат", "refund", "возмещение", "компенсация", "reimbursement", "return"]),
   ("Продажа товаров",
    ["продажа", "товар", "sale", "торговля", "реализация", "выручка", "товар"]),
   ("Оказание услуг",
    ["услуги", "сервис", "service", "работы", "консультация", "разработка",
     "выполнение"]),
   ("Инвестиции",
    ["дивиденд", "проценты", "вклад", "депозит", "инвестиции", "dividend",
     "interest", "investment", "доход по", "купон"]),
   ("Кэшбэк",
    ["кэшбэк", "cashback", "кешбэк", "кэшбек", "возврат %", "возврат процента",
     "бонус"])]

/-- The per-transaction classification loop shared verbatim by
`categorize_expenses` and `analyze_income_sources`: iterate the rules in
declaration order; the inner keyword loop breaks at the first keyword that
occurs in the (already lower-cased) description, the outer loop breaks once a
rule matched, and the fallback label is used when no rule matched.
`descLower` is `transaction.get("description", "").lower()`. -/
def classifyLoop (rules : List (String × List String)) (fallback descLower : String) :
    String :=
  match rules with
  | [] => fallback
  | (label, kws) :: rest =>
      if kws.any (fun kw => occursIn (lowerStr kw) descLower) then label
      else classifyLoop rest fallback descLower

/-- The accumulated `categories` / `sources` defaultdict of the two
classifier functions: each transaction's amount is added under the label the
classification loop assigns to it. -/
def classTable (rules : List (String × List String)) (txs : List Tx) :
    List (String × ℚ) :=
  txs.foldl
    (fun m t => addToTable m (classifyLoop rules "Другое" (lowerStr t.description))
      t.amount) []

/-- An entry of the `categories` / `sources` result list:
`{"category"/"source": ..., "amount": ..., "percentage": ...}`. -/
structure CatEntry where
  label : String
  amount : ℚ
  percentage : ℚ
deriving Repr, DecidableEq

/-- The shared result-building tail of `categorize_expenses` and
`analyze_income_sources`: entries sorted by amount descending, with
`percentage = amount / sum(values) * 100` when the sum is positive, else 0
(the Python comprehension recomputes `sum(categories.values())` inline, as
here). -/
def categorizeWith (rules : List (String × List String)) (txs : List Tx) :
    List CatEntry :=
  (sortDescBy Prod.snd (classTable rules txs)).map
    (fun p =>
      { label := p.1, amount := p.2,
        percentage :=
          if 0 < sumValues (classTable rules txs) then
            p.2 / sumValues (classTable rules txs) * 100
          else 0 })

/-- Function `categorize_expenses(transactions)` from `expense_analyzer.py`. -/
def categorize_expenses (txs : List Tx) : List CatEntry :=
  categorizeWith expense_category_keywords txs

/-- Function `analyze_income_sources(transactions)` from `income_analyzer.py`
(verbatim the same algorithm with its own keyword table). -/
def analyze_income_sources (txs : List Tx) : List CatEntry :=
  categorizeWith source_keywords txs

/-- The result dict of `analyze_expenses` / `analyze_income`; `breakdown` is
the `"categories"` key for expenses and the `"sources"` key for income. -/
structure AnalysisResult where
  total : ℚ
  count : Nat
  average : ℚ
  by_category : List (String × ℚ)
  by_month : List (String × ℚ)
  largest : Option Tx
  smallest : Option Tx
  breakdown : List CatEntry
deriving Repr, DecidableEq

/-- The early-return result for an empty filtered list. -/
def emptyAnalysis : AnalysisResult :=
  { total := 0, count := 0, average := 0, by_category := [], by_month := [],
    largest := none, smallest := none, breakdown := [] }

/-- Grouping by `t.get("category", "Другое")`. -/
def byCategoryOf (txs : List Tx) : List (String × ℚ) :=
  txs.foldl (fun m t => addToTable m (t.category.getD "Другое") t.amount) []

/-- Grouping by `date.strftime("%Y-%m")` for transactions with a datetime. -/
def byMonthOf (txs : List Tx) : List (String × ℚ) :=
  txs.foldl
    (fun m t =>
      match t.date with
      | some d => addToTable m (monthKey d) t.amount
      | none => m) []

/-- The common body of `analyze_expenses` and `analyze_income`
(the two functions are line-for-line analogous and differ only in the filter
predicate and the breakdown subroutine). -/
def analyzeWith (flt : Tx → Bool) (breakdownOf : List Tx → List CatEntry)
    (txs : List Tx) : AnalysisResult :=
  let sel := txs.filter flt
  if sel.isEmpty then emptyAnalysis
  else
    let total := (sel.map (fun t => t.amount)).sum
    let count := sel.length
    let average := if 0 < count then total / (count : ℚ) else 0
    let sorted := sortDescBy (fun t => t.amount) sel
    { total := total
      count := count
      average := average
      by_category := byCategoryOf sel
      by_month := byMonthOf sel
      largest := sorted.head?
      smallest := sorted.getLast?
      breakdown := breakdownOf sel }

/-- Function `analyze_expenses(transactions)`: keeps the transactions with
`not t.get("is_income", True)`. -/
def analyze_expenses (txs : List Tx) : AnalysisResult :=
  analyzeWith (fun t => !(t.is_income.getD true)) categorize_expenses txs

/-- Function `analyze_income(transactions)`: keeps the transactions with
`t.get("is_income", False)`. -/
def analyze_income (txs : List Tx) : AnalysisResult :=
  analyzeWith (fun t => t.is_income.getD false) analyze_income_sources txs

/-! ### Lemmas about the aggregation tables -/

theorem sumValues_nil : sumValues [] = 0 := rfl

theorem sumValues_cons (p : String × ℚ) (m : List (String × ℚ)) :
    sumValues (p :: m) = p.2 + sumValues m := by
  simp [sumValues]

theorem sumValues_addToTable (m : List (String × ℚ)) (k : String) (v : ℚ) :
    sumValues (addToTable m k v) = sumValues m + v := by
  induction m with
  | nil => simp [addToTable, sumValues]
  | cons p rest ih =>
      obtain ⟨k', v'⟩ := p
      by_cases h : k' = k
      · simp only [addToTable, if_pos h, sumValues_cons]
        ring
      · simp only [addToTable, if_neg h, sumValues_cons, ih]
        ring

theorem sumValues_foldl (key : Tx → String) (l : List Tx) :
    ∀ m0 : List (String × ℚ),
      sumValues (l.foldl (fun m t => addToTable m (key t) t.amount) m0) =
        sumValues m0 + (l.map (fun t => t.amount)).sum := by
  induction l with
  | nil => intro m0; simp
  | cons t rest ih =>
      intro m0
      simp only [List.foldl_cons, ih, sumValues_addToTable, List.map_cons,
        List.sum_cons]
      ring

theorem insDescBy_perm (key : α → ℚ) (x : α) (l : List α) :
    List.Perm (insDescBy key x l) (x :: l) := by
  induction l with
  | nil => exact List.Perm.refl _
  | cons y ys ih =>
      by_cases h : key y ≤ key x
      · simp only [insDescBy, if_pos h]
        exact List.Perm.refl _
      · simp only [insDescBy, if_neg h]
        exact (ih.cons y).trans (List.Perm.swap x y ys)

theorem sortDescBy_perm (key : α → ℚ) (l : List α) :
    List.Perm (sortDescBy key l) l := by
  induction l with
  | nil => exact List.Perm.refl _
  | cons x xs ih =>
      exact (insDescBy_perm key x (sortDescBy key xs)).trans (ih.cons x)

/-- Core of C6, proved once for the shared analysis body. -/
theorem analyzeWith_by_category_total (flt : Tx → Bool)
    (bd : List Tx → List CatEntry) (txs : List Tx) :
    sumValues (analyzeWith flt bd txs).by_category = (analyzeWith flt bd txs).total := by
  unfold analyzeWith
  by_cases h : (txs.filter flt).isEmpty
  · simp [h, emptyAnalysis, sumValues]
  · simp only [h, Bool.false_eq_true, if_false, byCategoryOf, sumValues_foldl,
      sumValues_nil, zero_add]

/-- Core of C7, proved once for the shared classifier body. -/
theorem categorizeWith_percentage (rules : List (String × List String))
    (txs : List Tx) :
    (0 < sumValues (classTable rules txs) →
      ((categorizeWith rules txs).map (fun e => e.percentage)).sum = 100) ∧
    (sumValues (classTable rules txs) = 0 →
      ∀ e ∈ categorizeWith rules txs, e.percentage = 0) := by
  constructor
  · intro hpos
    have hS : sumValues (classTable rules txs) ≠ 0 := ne_of_gt hpos
    unfold categorizeWith
    rw [List.map_map]
    simp only [Function.comp_def, if_pos hpos, div_mul_eq_mul_div, mul_div_assoc]
    rw [((sortDescBy_perm Prod.snd (classTable rules txs)).map
      (fun p : String × ℚ => p.2 * (100 / sumValues (classTable rules txs)))).sum_eq]
    rw [List.sum_map_mul_right]
    have hsv : ((classTable rules txs).map Prod.snd).sum =
        sumValues (classTable rules txs) := rfl
    rw [hsv, mul_comm, div_mul_cancel₀ _ hS]
  · intro h0 e he
    unfold categorizeWith at he
    obtain ⟨p, _, rfl⟩ := List.mem_map.1 he
    simp [h0]

/-- C6: for every transaction list, the values of the `by_category` map
returned by `analyze_expenses` sum exactly to the returned `total`, and
likewise for `analyze_income`. -/
theorem by_category_sums_to_total (txs : List Tx) :
    sumValues (analyze_expenses txs).by_category = (analyze_expenses txs).total ∧
    sumValues (analyze_income txs).by_category = (analyze_income txs).total :=
  ⟨analyzeWith_by_category_total _ _ txs, analyzeWith_by_category_total _ _ txs⟩

/-- C7: the `percentage` fields of the categories/sources breakdown sum to
`100` when the sum of all label sums is positive, and are all `0` when that
total is `0`. -/
theorem percentage_fields_spec (txs : List Tx) :
    (0 < sumValues (classTable expense_category_keywords txs) →
      ((categorize_expenses txs).map (fun e => e.percentage)).sum = 100) ∧
    (sumValues (classTable expense_category_keywords txs) = 0 →
      ∀ e ∈ categorize_expenses txs, e.percentage = 0) ∧
    (0 < sumValues (classTable source_keywords txs) →
      ((analyze_income_sources txs).map (fun e => e.percentage)).sum = 100) ∧
    (sumValues (classTable source_keywords txs) = 0 →
      ∀ e ∈ analyze_income_sources txs, e.percentage = 0) :=
  ⟨(categorizeWith_percentage expense_category_keywords txs).1,
   (categorizeWith_percentage expense_category_keywords txs).2,
   (categorizeWith_percentage source_keywords txs).1,
   (categorizeWith_percentage source_keywords txs).2⟩

/-- Witness for `percentage_fields_spec`: a one-transaction expense list with
positive total (sums to 100) and a one-transaction zero-amount income list
(all percentages 0). -/
theorem percentage_fields_spec_witness :
    (0 < sumValues (classTable expense_category_keywords
        [⟨none, "аренда офиса", 100, some false, none, none⟩]) ∧
      ((categorize_expenses
          [⟨none, "аренда офиса", 100, some false, none, none⟩]).map
        (fun e => e.percentage)).sum = 100) ∧
    (sumValues (classTable source_keywords
        [⟨none, "x", 0, some true, none, none⟩]) = 0 ∧
      ∀ e ∈ analyze_income_sources [⟨none, "x", 0, some true, none, none⟩],
        e.percentage = 0) :=
  ⟨⟨by with_unfolding_all decide,
    (percentage_fields_spec
      [⟨none, "аренда офиса", 100, some false, none, none⟩]).1
      (by with_unfolding_all decide)⟩,
   ⟨by with_unfolding_all decide,
    (percentage_fields_spec
      [⟨none, "x", 0, some true, none, none⟩]).2.2.2
      (by with_unfolding_all decide)⟩⟩

/-- The classification rule as the spec words it: the first rule whose any
keyword occurs as a substring of the lower-cased description wins; if no rule
matches, the fallback label is assigned.  Stated with `List.find?` to be
compared against the code's nested loop `classifyLoop`. -/
def specFirstMatchLabel (rules : List (String × List String))
    (fallback desc : String) : String :=
  match rules.find?
      (fun r => r.2.any (fun kw => occursIn (lowerStr kw) (lowerStr desc))) with
  | some r => r.1
  | none => fallback

theorem classifyLoop_eq_firstMatch (rules : List (String × List String))
    (fallback desc : String) :
    classifyLoop rules fallback (lowerStr desc) =
      specFirstMatchLabel rules fallback desc := by
  induction rules with
  | nil => rfl
  | cons r rest ih =>
      obtain ⟨label, kws⟩ := r
      unfold classifyLoop specFirstMatchLabel
      rw [List.find?_cons]
      by_cases h : kws.any (fun kw => occursIn (lowerStr kw) (lowerStr desc)) = true
      · simp only [h, if_true]
      · simp only [h, Bool.false_eq_true, if_false]
        simpa [specFirstMatchLabel] using ih

/-- C8: for every description, the classification loop of both analyzers
lower-cases the description, scans the rules in declaration order, returns
the label of the first rule any of whose keywords occurs as a substring
(stopping there — no multi-label), and falls back to `"Другое"` when no rule
matches; i.e. it equals the spec's first-match function. -/
theorem classifier_first_match (desc : String) :
    classifyLoop expense_category_keywords "Другое" (lowerStr desc) =
      specFirstMatchLabel expense_category_keywords "Другое" desc ∧
    classifyLoop source_keywords "Другое" (lowerStr desc) =
      specFirstMatchLabel source_keywords "Другое" desc :=
  ⟨classifyLoop_eq_firstMatch _ _ desc, classifyLoop_eq_firstMatch _ _ desc⟩

theorem analyzeWith_filter_congr (flt : Tx → Bool) (bd : List Tx → List CatEntry)
    (txs txs2 : List Tx) (h : txs.filter flt = txs2.filter flt) :
    analyzeWith flt bd txs = analyzeWith flt bd txs2 := by
  unfold analyzeWith
  rw [h]

/-- C9: a transaction whose `is_income` key is absent fails the filter of both
analyzers (`t.get("is_income", True)` defaults it out of the expenses,
`t.get("is_income", False)` out of the income), so every analysis output is
unchanged when such transactions are removed from the input. -/
theorem missing_is_income_not_counted (txs : List Tx) :
    (∀ t : Tx, t.is_income = none →
      (!(t.is_income.getD true)) = false ∧ t.is_income.getD false = false) ∧
    analyze_expenses txs =
      analyze_expenses (txs.filter (fun t => t.is_income.isSome)) ∧
    analyze_income txs =
      analyze_income (txs.filter (fun t => t.is_income.isSome)) := by
  refine ⟨fun t h => by simp [h], ?_, ?_⟩
  · refine analyzeWith_filter_congr _ _ _ _ ?_
    rw [List.filter_filter]
    refine (List.filter_congr fun t _ => ?_).symm
    cases h : t.is_income <;> simp [h]
  · refine analyzeWith_filter_congr _ _ _ _ ?_
    rw [List.filter_filter]
    refine (List.filter_congr fun t _ => ?_).symm
    cases h : t.is_income <;> simp [h]

/-- Witness for `missing_is_income_not_counted`: a transaction with no
`is_income` key is counted by neither analysis. -/
theorem missing_is_income_not_counted_witness :
    ((⟨none, "оплата", 50, none, none, none⟩ : Tx).is_income = none ∧
      (!((⟨none, "оплата", 50, none, none, none⟩ : Tx).is_income.getD true)) = false ∧
      (⟨none, "оплата", 50, none, none, none⟩ : Tx).is_income.getD false = false) ∧
    analyze_expenses [⟨none, "оплата", 50, none, none, none⟩] =
      analyze_expenses ([⟨none, "оплата", 50, none, none, none⟩].filter
        (fun t => t.is_income.isSome)) :=
  ⟨⟨rfl,
    (missing_is_income_not_counted []).1 ⟨none, "оплата", 50, none, none, none⟩ rfl⟩,
   (missing_is_income_not_counted [⟨none, "оплата", 50, none, none, none⟩]).2.1⟩


/-! ### Kaspi statement parsers (`backEnd/Core/parser/kaspi_parser.py`)

The Excel and CSV parsers receive their input as a list of row dicts
(`pandas.DataFrame.to_dict(orient="records")`); a row is modelled as an
association list from column name to cell value.  File existence checks and
the actual pandas reads are outside the embedding: the parse functions below
take the extracted row data.  The PDF parser is modelled from the per-match
processing loops: a match of the primary pattern
`(дата)\s+(описание)\s+([\d\s,.]+)\s*(тг|₸)?\s+(приход|расход)` carries its
capture groups, and likewise for the fallback pattern without the explicit
direction group. -/

/-- A cell value of an extracted row: string, number (int/float), datetime,
or missing/`None`/`NaN`. -/
inductive Cell
  | str (s : String)
  | num (q : ℚ)
  | date (d : DateT)
  | null
deriving Repr, DecidableEq

/-- Python truthiness of a cell value (`""`, `0`, `0.0` and `None` are
falsy). -/
def Cell.truthy : Cell → Bool
  | .str s => !(s.toList.isEmpty)
  | .num q => decide (q ≠ 0)
  | .date _ => true
  | .null => false

/-- Python `str(value)`.  Only string cells are ever inspected by the
properties proved here; the renderings of numbers and datetimes are fixed
abstract placeholders. -/
def cellStr : Cell → String
  | .str s => s
  | .num q => "num:" ++ toString q.num
  | .date d => "datetime:" ++ padNat 4 d.year
  | .null => "None"

/-- A row dict of an extracted statement table. -/
abbrev Row := List (String × Cell)

/-- Model of `row.get(k)`: the value under key `k`, `None` when absent. -/
def rowLookup (row : Row) (k : String) : Cell :=
  match row.find? (fun p => p.1 == k) with
  | some p => p.2
  | none => Cell.null

/-- Truthiness of one of the `*_column` variables: they are either unset
(`None`) or hold a column-name string (an empty name is also falsy). -/
def truthyCol : Option String → Bool
  | some s => !(s.toList.isEmpty)
  | none => false

/-- Model of `row.get(col)` where `col` is one of the `*_column` variables. -/
def rowGetCol (row : Row) (c : Option String) : Cell :=
  match c with
  | some k => rowLookup row k
  | none => Cell.null

/-- The five `*_column` variables of the Excel/CSV parse loops. -/
structure Cols where
  dateCol : Option String
  descCol : Option String
  amountCol : Option String
  typeCol : Option String
  refCol : Option String
deriving Repr, DecidableEq

def date_keywords : List String := ["дата", "date"]
def description_keywords : List String := ["описание", "назначение", "description"]
def amount_keywords : List String := ["сумма", "amount"]
def type_keywords : List String := ["тип", "type", "приход", "расход", "операция"]
def reference_keywords : List String := ["референс", "reference", "номер"]

/-- The header-scanning loop over `data[0].keys()`: for each column name the
five keyword tests run independently, so a later matching column overwrites
an earlier assignment (verbatim in both the Excel and the CSV parser). -/
def detectHeaderCols (columns : List String) : Cols :=
  columns.foldl
    (fun c column =>
      let cl := lowerStr column
      let c := if containsAny cl date_keywords then { c with dateCol := some column } else c
      let c := if containsAny cl description_keywords then { c with descCol := some column } else c
      let c := if containsAny cl amount_keywords then { c with amountCol := some column } else c
      let c := if containsAny cl type_keywords then { c with typeCol := some column } else c
      if containsAny cl reference_keywords then { c with refCol := some column } else c)
    ⟨none, none, none, none, none⟩

/-- Model of `re.match(r'\d{2}\.\d{2}\.\d{4}', value)`: anchored at the start, the
rest of the string is unconstrained. -/
def matchesDateShape (s : String) : Bool :=
  match s.toList with
  | d1 :: d2 :: '.' :: m1 :: m2 :: '.' :: y1 :: y2 :: y3 :: y4 :: _ =>
      d1.isDigit && d2.isDigit && m1.isDigit && m2.isDigit &&
        y1.isDigit && y2.isDigit && y3.isDigit && y4.isDigit
  | _ => false

/-- One `(column, value)` step of the Excel content-sniffing fallback: a
string cell shaped like a `DD.MM.YYYY` date fixes the date column, a nonzero
int/float cell fixes the amount column; each only while still unset. -/
def sniffStepExcel (c : Cols) (cv : String × Cell) : Cols :=
  let c :=
    if !truthyCol c.dateCol then
      match cv.2 with
      | .str s => if matchesDateShape s then { c with dateCol := some cv.1 } else c
      | _ => c
    else c
  if !truthyCol c.amountCol then
    match cv.2 with
    | .num q => if q ≠ 0 then { c with amountCol := some cv.1 } else c
    | _ => c
  else c

/-- Note that `float()` also accepts the special literals `inf`, `infinity`, `nan`
(used only by the CSV sniffing test, which merely asks for a nonzero float). -/
def isSpecialFloatTail (cs : List Char) : Bool :=
  let l := cs.map lowerChar
  l == ['i', 'n', 'f'] || l == ['i', 'n', 'f', 'i', 'n', 'i', 't', 'y'] ||
    l == ['n', 'a', 'n']

def pyFloatSpecial (t : String) : Bool :=
  match t.toList with
  | '-' :: cs => isSpecialFloatTail cs
  | '+' :: cs => isSpecialFloatTail cs
  | cs => isSpecialFloatTail cs

/-- The CSV sniffing test on a string cell:
`float(value.replace(',', '.').replace(' ', '')) != 0`, `ValueError` meaning
no match. -/
def csvSniffCellAmount (s : String) : Bool :=
  let t := filterChars (fun c => !(c == ' ')) (replaceChar ',' '.' s)
  match pyFloat t with
  | some v => decide (v ≠ 0)
  | none => pyFloatSpecial t

/-- One `(column, value)` step of the CSV content-sniffing fallback: like the
Excel one, but a string cell that parses to a nonzero float also fixes the
amount column. -/
def sniffStepCSV (c : Cols) (cv : String × Cell) : Cols :=
  let c :=
    if !truthyCol c.dateCol then
      match cv.2 with
      | .str s => if matchesDateShape s then { c with dateCol := some cv.1 } else c
      | _ => c
    else c
  if !truthyCol c.amountCol then
    match cv.2 with
    | .num q => if q ≠ 0 then { c with amountCol := some cv.1 } else c
    | .str s => if csvSniffCellAmount s then { c with amountCol := some cv.1 } else c
    | _ => c
  else c

/-- The row loop of the content-sniffing fallback: scan every cell of a row,
stop after the first row that leaves both mandatory columns set. -/
def sniffRows (step : Cols → String × Cell → Cols) : Cols → List Row → Cols
  | c, [] => c
  | c, row :: rest =>
      let c := row.foldl step c
      if truthyCol c.dateCol && truthyCol c.amountCol then c
      else sniffRows step c rest

/-- Date conversion of the Excel/CSV row loop: a datetime cell is taken
as-is, a string cell is tried against the three `strptime` formats, anything
else leaves the date unset (row skipped). -/
def parseRowDate : Cell → Option DateT
  | .date d => some d
  | .str s => parseDateFormats s
  | _ => none

/-- Amount cleaning of the Excel/CSV row loop for string cells:
`re.sub(r'[^\d.,]', '', value)` then `replace(',', '.')` then `float(...)`. -/
def cleanRowAmountStr (s : String) : String :=
  replaceChar ',' '.' (filterChars (fun c => c.isDigit || c == '.' || c == ',') s)

def income_type_keywords : List String :=
  ["приход", "поступление", "income", "credit", "зачисление"]
def expense_type_keywords : List String :=
  ["расход", "списание", "expense", "debit"]

/-- One iteration of the transaction loop shared verbatim by
`KaspiExcelParser.parse_file` and `KaspiCSVParser.parse_file`: skip the row
when the date or amount cell is falsy, when the date does not parse, or when
a string amount does not parse; resolve the direction from the type column
when one is present (income keywords first, an expense-keyword match then
overrides), otherwise flip a negative amount to an expense and store its
absolute value. -/
def processKaspiRow (cols : Cols) (row : Row) : Option Tx :=
  let dCell := rowGetCol row cols.dateCol
  let aCell := rowGetCol row cols.amountCol
  if !dCell.truthy || !aCell.truthy then none
  else
    match parseRowDate dCell with
    | none => none
    | some date =>
        let description :=
          if truthyCol cols.descCol && (rowGetCol row cols.descCol).truthy then
            cellStr (rowGetCol row cols.descCol)
          else ""
        let amount0? : Option ℚ :=
          match aCell with
          | .num q => some q
          | .str s => pyFloat (cleanRowAmountStr s)
          | _ => some 0
        match amount0? with
        | none => none
        | some amount0 =>
            let typed := truthyCol cols.typeCol && (rowGetCol row cols.typeCol).truthy
            let type_value := lowerStr (cellStr (rowGetCol row cols.typeCol))
            let pair :=
              if typed then
                let inc0 := containsAny type_value income_type_keywords
                (amount0, if containsAny type_value expense_type_keywords then false else inc0)
              else if amount0 < 0 then (|amount0|, false)
              else (amount0, true)
            let reference :=
              if truthyCol cols.refCol && (rowGetCol row cols.refCol).truthy then
                some (cellStr (rowGetCol row cols.refCol))
              else none
            some { date := some date, description := description, amount := pair.1,
                   is_income := some pair.2, reference := reference, category := none }

/-- Column detection of `KaspiExcelParser.parse_file`: headers first, then
the Excel content-sniffing fallback when date or amount is still unset. -/
def excelCols (data : List Row) : Cols :=
  let cols := detectHeaderCols ((data.headD []).map Prod.fst)
  if !(truthyCol cols.dateCol && truthyCol cols.amountCol) then
    sniffRows sniffStepExcel cols data
  else cols

/-- Model of `KaspiExcelParser.parse_file` on the extracted row data
(`post_process_transactions` is the identity). -/
def kaspiExcelParse (data : List Row) : List Tx :=
  if data.isEmpty then []
  else
    let cols := excelCols data
    if !(truthyCol cols.dateCol && truthyCol cols.amountCol) then []
    else data.filterMap (processKaspiRow cols)

/-- Column detection of `KaspiCSVParser.parse_file` (CSV sniffing variant). -/
def csvCols (data : List Row) : Cols :=
  let cols := detectHeaderCols ((data.headD []).map Prod.fst)
  if !(truthyCol cols.dateCol && truthyCol cols.amountCol) then
    sniffRows sniffStepCSV cols data
  else cols

/-- Model of `KaspiCSVParser.parse_file` on the extracted row data; the transaction
loop is verbatim the Excel one. -/
def kaspiCSVParse (data : List Row) : List Tx :=
  if data.isEmpty then []
  else
    let cols := csvCols data
    if !(truthyCol cols.dateCol && truthyCol cols.amountCol) then []
    else data.filterMap (processKaspiRow cols)

/-- Capture groups of one primary-pattern PDF match:
date, lazy description, amount drawn from the class `[\d\s,.]`, optional
currency marker, and the explicit direction word. -/
structure PDFMatch where
  dateStr : String
  description : String
  amountStr : String
  currency : Option String
  txType : String
deriving Repr, DecidableEq

/-- Capture groups of one fallback-pattern PDF match (no direction group). -/
structure PDFAltMatch where
  dateStr : String
  description : String
  amountStr : String
  currency : String
deriving Repr, DecidableEq

/-- PDF amount cleaning: `replace(' ', '')` then `replace(',', '.')`. -/
def cleanPDFAmount (s : String) : String :=
  replaceChar ',' '.' (filterChars (fun c => !(c == ' ')) s)

/-- The primary-pattern match loop of `KaspiPDFParser.parse_file`: skip on an
unparsable date or amount, direction is `транзакция == 'приход'`, expenses
store the absolute amount. -/
def kaspiPDFProcessMatch (m : PDFMatch) : Option Tx :=
  match parseDMY '.' m.dateStr with
  | none => none
  | some date =>
      match pyFloat (cleanPDFAmount m.amountStr) with
      | none => none
      | some amount =>
          let is_income := lowerStr m.txType == "приход"
          let amount := if !is_income then |amount| else amount
          some { date := some date, description := stripStr m.description,
                 amount := amount, is_income := some is_income,
                 reference := none, category := none }

def alt_income_keywords : List String :=
  ["поступление", "зачисление", "возврат", "перевод на счет"]
def alt_expense_keywords : List String :=
  ["оплата", "списание", "снятие", "перевод со счета"]

/-- The fallback-pattern match loop of `KaspiPDFParser.parse_file`: direction
is inferred from the description — the income-keyword loop first, then the
expense-keyword loop, whose match overwrites the flag. -/
def kaspiPDFProcessAltMatch (m : PDFAltMatch) : Option Tx :=
  match parseDMY '.' m.dateStr with
  | none => none
  | some date =>
      match pyFloat (cleanPDFAmount m.amountStr) with
      | none => none
      | some amount =>
          let inc0 := alt_income_keywords.any
            (fun kw => occursIn (lowerStr kw) (lowerStr m.description))
          let is_income :=
            if alt_expense_keywords.any
                (fun kw => occursIn (lowerStr kw) (lowerStr m.description)) then false
            else inc0
          let amount := if !is_income then |amount| else amount
          some { date := some date, description := stripStr m.description,
                 amount := amount, is_income := some is_income,
                 reference := none, category := none }

/-- Model of `KaspiPDFParser.parse_file` on the matches of the two patterns: the
fallback matches are used only when the primary pattern produced no
transactions. -/
def kaspiPDFParse (primary : List PDFMatch) (alt : List PDFAltMatch) : List Tx :=
  let ts := primary.filterMap kaspiPDFProcessMatch
  if ts.isEmpty then alt.filterMap kaspiPDFProcessAltMatch else ts

/-! ### Parser factory and processing flow

`get_parser_for_statement` (`base_parser.py`) and the statement-processing
background task (`analysis_controller.py`).  The Halyk parser classes are
imported by the factory but their module is not part of the sources; for the
claims below only which `(bank, extension)` pairs are registered matters. -/

inductive ParserKind
  | kaspiPDF | kaspiExcel | kaspiCSV | halykPDF | halykExcel | halykCSV
deriving Repr, DecidableEq

/-- Factory `get_parser_for_statement`: dispatch on the bank code and on
`FileName.split('.')[-1].lower()`; every unlisted combination reaches the
final `return None`. -/
def get_parser_for_statement (bankCode fileName : String) : Option ParserKind :=
  let ext := lowerStr ((splitOnChar '.' fileName).getLastD "")
  if bankCode == "KASPI" then
    if ext == "pdf" then some ParserKind.kaspiPDF
    else if ext == "xlsx" || ext == "xls" then some ParserKind.kaspiExcel
    else if ext == "csv" then some ParserKind.kaspiCSV
    else none
  else if bankCode == "HALYK" then
    if ext == "pdf" then some ParserKind.halykPDF
    else if ext == "xlsx" || ext == "xls" then some ParserKind.halykExcel
    else if ext == "csv" then some ParserKind.halykCSV
    else none
  else none

/-- Outcome of `process_statement_file`: the statement ends `FAILED`, or ends
`COMPLETED` with the parsed transaction list stored and analyzed. -/
inductive ProcOutcome
  | failed
  | completed (txs : List Tx)
deriving Repr, DecidableEq

/-- The parser-selection control flow of `process_statement_file`: no parser
means status `FAILED` and an immediate return; otherwise the statement
completes with whatever `parser.parse_file` returned (`run` abstracts the
per-parser file read; the exception path of the surrounding `try` is not
taken by the modelled parsers, which return lists instead of raising). -/
def processStatement (bankCode fileName : String) (run : ParserKind → List Tx) :
    ProcOutcome :=
  match get_parser_for_statement bankCode fileName with
  | none => ProcOutcome.failed
  | some p => ProcOutcome.completed (run p)



/-! ### Non-negativity of parsed amounts -/

theorem pyFloatMag_nonneg (cs : List Char) (q : ℚ) (h : pyFloatMag cs = some q) :
    0 ≤ q := by
  unfold pyFloatMag at h
  split at h
  · split at h
    · exact absurd h (by simp)
    · split at h
      · injection h with h
        subst h
        positivity
      · exact absurd h (by simp)
  · split at h
    · exact absurd h (by simp)
    · split at h
      · injection h with h
        subst h
        positivity
      · exact absurd h (by simp)

theorem pyFloat_nonneg (s : String) (hs : ∀ c ∈ s.toList, c ≠ '-') (q : ℚ)
    (h : pyFloat s = some q) : 0 ≤ q := by
  unfold pyFloat at h
  split at h
  next cs heq =>
    have hm : '-' ∈ s.toList := by rw [heq]; exact List.mem_cons_self _ _
    exact absurd rfl (hs '-' hm)
  next cs heq => exact pyFloatMag_nonneg cs q h
  next cs h1 h2 => exact pyFloatMag_nonneg _ q h

/-- The character class `[\d\s,.]` of the PDF amount capture group. -/
def pdfAmountCharsOk (s : String) : Bool :=
  s.toList.all (fun c => c.isDigit || c == ' ' || c == ',' || c == '.')

theorem cleanPDFAmount_no_minus (s : String) (h : pdfAmountCharsOk s = true) :
    ∀ c ∈ (cleanPDFAmount s).toList, c ≠ '-' := by
  intro c hc
  have hc2 : c ∈ (s.toList.filter (fun ch => !(ch == ' '))).map
      (fun ch => if ch == ',' then '.' else ch) := hc
  rcases List.mem_map.1 hc2 with ⟨c', hmem, rfl⟩
  have hsrc := (List.mem_filter.1 hmem).1
  have hp := List.all_eq_true.1 h c' hsrc
  by_cases hcm : (c' == ',') = true
  · simp only [hcm, if_true]
    decide
  · simp only [hcm, Bool.false_eq_true, if_false]
    intro hEq
    subst hEq
    exact absurd hp (by decide)

theorem cleanRowAmountStr_no_minus (s : String) :
    ∀ c ∈ (cleanRowAmountStr s).toList, c ≠ '-' := by
  intro c hc
  have hc2 : c ∈ (s.toList.filter (fun ch => ch.isDigit || ch == '.' || ch == ',')).map
      (fun ch => if ch == ',' then '.' else ch) := hc
  rcases List.mem_map.1 hc2 with ⟨c', hmem, rfl⟩
  have hp := (List.mem_filter.1 hmem).2
  by_cases hcm : (c' == ',') = true
  · simp only [hcm, if_true]
    decide
  · simp only [hcm, Bool.false_eq_true, if_false]
    intro hEq
    subst hEq
    exact absurd hp (by decide)


theorem kaspiPDFProcessMatch_amount (m : PDFMatch) (t : Tx)
    (hchars : pdfAmountCharsOk m.amountStr = true)
    (h : kaspiPDFProcessMatch m = some t) : 0 ≤ t.amount := by
  unfold kaspiPDFProcessMatch at h
  split at h
  · exact absurd h (by simp)
  · split at h
    · exact absurd h (by simp)
    next amount heq =>
      injection h with h
      subst h
      dsimp only
      split
      · exact abs_nonneg _
      · exact pyFloat_nonneg _ (cleanPDFAmount_no_minus m.amountStr hchars) amount heq

theorem kaspiPDFProcessAltMatch_amount (m : PDFAltMatch) (t : Tx)
    (hchars : pdfAmountCharsOk m.amountStr = true)
    (h : kaspiPDFProcessAltMatch m = some t) : 0 ≤ t.amount := by
  unfold kaspiPDFProcessAltMatch at h
  split at h
  · exact absurd h (by simp)
  · split at h
    · exact absurd h (by simp)
    next amount heq =>
      injection h with h
      subst h
      dsimp only
      split
      · exact abs_nonneg _
      · split
        · exact abs_nonneg _
        · exact pyFloat_nonneg _ (cleanPDFAmount_no_minus m.amountStr hchars) amount heq

theorem processKaspiRow_amount (cols : Cols) (row : Row) (t : Tx)
    (h : processKaspiRow cols row = some t) :
    0 ≤ t.amount ∨
      (truthyCol cols.typeCol = true ∧ (rowGetCol row cols.typeCol).truthy = true ∧
        rowGetCol row cols.amountCol = Cell.num t.amount ∧ t.amount < 0) := by
  simp only [processKaspiRow] at h
  split at h
  · exact absurd h (by simp)
  · split at h
    · exact absurd h (by simp)
    · split at h
      · exact absurd h (by simp)
      next amount0 heqA =>
        injection h with h
        subst h
        dsimp only
        by_cases htyped :
            (truthyCol cols.typeCol && (rowGetCol row cols.typeCol).truthy) = true
        · have hpair := htyped
          rw [Bool.and_eq_true] at hpair
          rw [if_pos htyped]
          dsimp only
          rcases le_or_lt 0 amount0 with hnn | hneg
          · exact Or.inl hnn
          · cases hcell : rowGetCol row cols.amountCol with
            | str s =>
                rw [hcell] at heqA
                exact absurd (pyFloat_nonneg _ (cleanRowAmountStr_no_minus s) _ heqA)
                  (not_le.2 hneg)
            | num q =>
                rw [hcell] at heqA
                have hq : q = amount0 := Option.some.inj heqA
                subst hq
                exact Or.inr ⟨hpair.1, hpair.2, rfl, hneg⟩
            | date d =>
                rw [hcell] at heqA
                have h0 : (0 : ℚ) = amount0 := Option.some.inj heqA
                exact absurd hneg (by rw [← h0]; exact lt_irrefl 0)
            | null =>
                rw [hcell] at heqA
                have h0 : (0 : ℚ) = amount0 := Option.some.inj heqA
                exact absurd hneg (by rw [← h0]; exact lt_irrefl 0)
        · rw [if_neg htyped]
          by_cases hlt : amount0 < 0
          · rw [if_pos hlt]
            exact Or.inl (abs_nonneg _)
          · rw [if_neg hlt]
            exact Or.inl (not_lt.1 hlt)


theorem kaspiExcelParse_mem (data : List Row) (t : Tx) (h : t ∈ kaspiExcelParse data) :
    ∃ row ∈ data, processKaspiRow (excelCols data) row = some t := by
  simp only [kaspiExcelParse] at h
  split at h
  · exact absurd h (List.not_mem_nil t)
  · split at h
    · exact absurd h (List.not_mem_nil t)
    · exact List.mem_filterMap.1 h

theorem kaspiCSVParse_mem (data : List Row) (t : Tx) (h : t ∈ kaspiCSVParse data) :
    ∃ row ∈ data, processKaspiRow (csvCols data) row = some t := by
  simp only [kaspiCSVParse] at h
  split at h
  · exact absurd h (List.not_mem_nil t)
  · split at h
    · exact absurd h (List.not_mem_nil t)
    · exact List.mem_filterMap.1 h

/-- C1 (amended): every transaction produced by the PDF parser (whose amount
text is drawn from the regex class `[\d\s,.]`) has a non-negative amount; a
transaction produced by the Excel/CSV row loop has a non-negative amount
unless its row combines a truthy type-column value with a negative numeric
amount cell, in which case the negative raw number is stored unchanged. -/
theorem amount_invariant_amended :
    (∀ (primary : List PDFMatch) (alt : List PDFAltMatch),
        (∀ m ∈ primary, pdfAmountCharsOk m.amountStr = true) →
        (∀ m ∈ alt, pdfAmountCharsOk m.amountStr = true) →
        ∀ t ∈ kaspiPDFParse primary alt, 0 ≤ t.amount) ∧
    (∀ (cols : Cols) (row : Row) (t : Tx), processKaspiRow cols row = some t →
        0 ≤ t.amount ∨
          (truthyCol cols.typeCol = true ∧ (rowGetCol row cols.typeCol).truthy = true ∧
            rowGetCol row cols.amountCol = Cell.num t.amount ∧ t.amount < 0)) ∧
    (∀ (data : List Row) (t : Tx), t ∈ kaspiExcelParse data →
        0 ≤ t.amount ∨ ∃ row ∈ data,
          truthyCol (excelCols data).typeCol = true ∧
          (rowGetCol row (excelCols data).typeCol).truthy = true ∧
          rowGetCol row (excelCols data).amountCol = Cell.num t.amount ∧ t.amount < 0) ∧
    (∀ (data : List Row) (t : Tx), t ∈ kaspiCSVParse data →
        0 ≤ t.amount ∨ ∃ row ∈ data,
          truthyCol (csvCols data).typeCol = true ∧
          (rowGetCol row (csvCols data).typeCol).truthy = true ∧
          rowGetCol row (csvCols data).amountCol = Cell.num t.amount ∧ t.amount < 0) := by
  refine ⟨?_, processKaspiRow_amount, ?_, ?_⟩
  · intro primary alt h1 h2 t ht
    simp only [kaspiPDFParse] at ht
    split at ht
    · rcases List.mem_filterMap.1 ht with ⟨m, hm, he⟩
      exact kaspiPDFProcessAltMatch_amount m t (h2 m hm) he
    · rcases List.mem_filterMap.1 ht with ⟨m, hm, he⟩
      exact kaspiPDFProcessMatch_amount m t (h1 m hm) he
  · intro data t ht
    rcases kaspiExcelParse_mem data t ht with ⟨row, hrow, hp⟩
    rcases processKaspiRow_amount _ _ _ hp with hnn | hbad
    · exact Or.inl hnn
    · exact Or.inr ⟨row, hrow, hbad⟩
  · intro data t ht
    rcases kaspiCSVParse_mem data t ht with ⟨row, hrow, hp⟩
    rcases processKaspiRow_amount _ _ _ hp with hnn | hbad
    · exact Or.inl hnn
    · exact Or.inr ⟨row, hrow, hbad⟩

/-- C1 counterexample: an Excel statement whose type column holds "расход"
and whose amount cell is the number `-100` yields a transaction whose stored
amount is negative — the claim's non-negativity invariant fails on the code. -/
theorem amount_invariant_counterexample :
    ∃ t ∈ kaspiExcelParse
      [[("Дата", Cell.date ⟨2024, 1, 15⟩), ("Сумма", Cell.num (-100)),
        ("Тип", Cell.str "расход")]], t.amount < 0 := by
  with_unfolding_all decide

/-- Witness for `amount_invariant_amended`: a concrete PDF match with amount
text `"25,50"` from the numeric character class. -/
theorem amount_invariant_amended_witness :
    (∀ m ∈ [(⟨"15.01.0009", "Оплата услуг", "25,50", some "тг", "расход"⟩ : PDFMatch)],
      pdfAmountCharsOk m.amountStr = true) ∧
    ∀ t ∈ kaspiPDFParse
      [(⟨"15.01.0009", "Оплата услуг", "25,50", some "тг", "расход"⟩ : PDFMatch)] [],
      0 ≤ t.amount :=
  ⟨by decide,
    amount_invariant_amended.1 _ [] (by decide) (by simp)⟩

/-- C2 (amended): when a row's explicit direction value matches an expense
keyword — in particular when it matches both an income and an expense
keyword — the resulting transaction has `is_income = false`: the
expense-keyword check runs after the income-keyword check and overrides it,
so expense keywords take priority.  Likewise for the PDF fallback pattern's
description-based inference. -/
theorem both_keywords_direction_amended :
    (∀ (cols : Cols) (row : Row) (t : Tx), processKaspiRow cols row = some t →
        truthyCol cols.typeCol = true →
        (rowGetCol row cols.typeCol).truthy = true →
        containsAny (lowerStr (cellStr (rowGetCol row cols.typeCol)))
          expense_type_keywords = true →
        t.is_income = some false) ∧
    (∀ (m : PDFAltMatch) (t : Tx), kaspiPDFProcessAltMatch m = some t →
        (alt_expense_keywords.any
          (fun kw => occursIn (lowerStr kw) (lowerStr m.description))) = true →
        t.is_income = some false) := by
  constructor
  · intro cols row t h hT1 hT2 hkw
    simp only [processKaspiRow] at h
    split at h
    · exact absurd h (by simp)
    · split at h
      · exact absurd h (by simp)
      · split at h
        · exact absurd h (by simp)
        next amount0 heqA =>
          injection h with h
          subst h
          have htyped :
              (truthyCol cols.typeCol && (rowGetCol row cols.typeCol).truthy) = true := by
            rw [Bool.and_eq_true]
            exact ⟨hT1, hT2⟩
          dsimp only
          rw [if_pos htyped]
  · intro m t h hkw
    unfold kaspiPDFProcessAltMatch at h
    split at h
    · exact absurd h (by simp)
    · split at h
      · exact absurd h (by simp)
      next amount heq =>
        injection h with h
        subst h
        dsimp only
        rw [if_pos hkw]

/-- C2 counterexample: a row whose direction value "приход расход" matches
both an income keyword and an expense keyword produces a transaction with
`is_income = false`, not `true` as the claim states. -/
theorem both_keywords_direction_counterexample :
    containsAny (lowerStr "приход расход") income_type_keywords = true ∧
    containsAny (lowerStr "приход расход") expense_type_keywords = true ∧
    (kaspiExcelParse
      [[("Дата", Cell.date ⟨2024, 1, 15⟩), ("Сумма", Cell.num 100),
        ("Тип", Cell.str "приход расход")]]).map (fun t => t.is_income) =
      [some false] := by
  with_unfolding_all decide

/-- Witness for `both_keywords_direction_amended` at a concrete row whose
type value matches both keyword lists. -/
theorem both_keywords_direction_amended_witness :
    processKaspiRow ⟨some "Дата", none, some "Сумма", some "Тип", none⟩
      [("Дата", Cell.date ⟨9, 1, 15⟩), ("Сумма", Cell.num 100),
       ("Тип", Cell.str "приход расход")] =
      some ⟨some ⟨9, 1, 15⟩, "", 100, some false, none, none⟩ ∧
    (⟨some ⟨9, 1, 15⟩, "", 100, some false, none, none⟩ : Tx).is_income = some false :=
  ⟨by with_unfolding_all decide,
    both_keywords_direction_amended.1
      ⟨some "Дата", none, some "Сумма", some "Тип", none⟩
      [("Дата", Cell.date ⟨9, 1, 15⟩), ("Сумма", Cell.num 100),
       ("Тип", Cell.str "приход расход")]
      ⟨some ⟨9, 1, 15⟩, "", 100, some false, none, none⟩
      (by with_unfolding_all decide) (by decide) (by with_unfolding_all decide)
      (by decide)⟩

/-- C3: for every (bank code, file name) pair for which no parser is
registered, the processing flow marks the statement `FAILED` and returns —
it never produces a completed (success) outcome, in particular never an
empty transaction list as a success. -/
theorem unsupported_pair_error (bankCode fileName : String)
    (run : ParserKind → List Tx)
    (h : get_parser_for_statement bankCode fileName = none) :
    processStatement bankCode fileName run = ProcOutcome.failed ∧
    ∀ txs : List Tx, processStatement bankCode fileName run ≠
      ProcOutcome.completed txs := by
  have hp : processStatement bankCode fileName run = ProcOutcome.failed := by
    unfold processStatement
    rw [h]
  exact ⟨hp, fun txs hc => by rw [hp] at hc; exact ProcOutcome.noConfusion hc⟩

/-- Witness for `unsupported_pair_error`: KASPI with a `.docx` file has no
registered parser. -/
theorem unsupported_pair_error_witness :
    get_parser_for_statement "KASPI" "statement.docx" = none ∧
    processStatement "KASPI" "statement.docx" (fun _ => []) = ProcOutcome.failed :=
  ⟨by decide,
    (unsupported_pair_error "KASPI" "statement.docx" (fun _ => []) (by decide)).1⟩

/-- C4 (amended): when the mandatory date and amount columns cannot be
identified by headers or content sniffing, the Excel/CSV parsers return the
empty transaction list — no partial or guessed data — but no error reaches
the caller: the processing flow completes the statement successfully with
zero transactions (the "structure not recognized" message is only printed). -/
theorem structure_not_recognized_amended (data : List Row) :
    ((truthyCol (excelCols data).dateCol && truthyCol (excelCols data).amountCol)
        = false →
      kaspiExcelParse data = [] ∧
      processStatement "KASPI" "statement.xlsx" (fun _ => kaspiExcelParse data) =
        ProcOutcome.completed []) ∧
    ((truthyCol (csvCols data).dateCol && truthyCol (csvCols data).amountCol)
        = false →
      kaspiCSVParse data = [] ∧
      processStatement "KASPI" "statement.csv" (fun _ => kaspiCSVParse data) =
        ProcOutcome.completed []) := by
  constructor
  · intro h
    have hcond : (!(truthyCol (excelCols data).dateCol &&
        truthyCol (excelCols data).amountCol)) = true := by rw [h]; rfl
    have hparse : kaspiExcelParse data = [] := by
      simp [kaspiExcelParse, hcond]
    have hgp : get_parser_for_statement "KASPI" "statement.xlsx" =
        some ParserKind.kaspiExcel := by decide
    refine ⟨hparse, ?_⟩
    unfold processStatement
    rw [hgp, hparse]
  · intro h
    have hcond : (!(truthyCol (csvCols data).dateCol &&
        truthyCol (csvCols data).amountCol)) = true := by rw [h]; rfl
    have hparse : kaspiCSVParse data = [] := by
      simp [kaspiCSVParse, hcond]
    have hgp : get_parser_for_statement "KASPI" "statement.csv" =
        some ParserKind.kaspiCSV := by decide
    refine ⟨hparse, ?_⟩
    unfold processStatement
    rw [hgp, hparse]

/-- C4 counterexample: a table with unrecognizable structure is not rejected
with an error — parsing returns an empty list and the processing flow
records a successful completion with zero transactions. -/
theorem structure_not_recognized_counterexample :
    (truthyCol (excelCols [[("AAA", Cell.str "hello"), ("BBB", Cell.str "world")]]).dateCol &&
      truthyCol (excelCols [[("AAA", Cell.str "hello"), ("BBB", Cell.str "world")]]).amountCol)
      = false ∧
    kaspiExcelParse [[("AAA", Cell.str "hello"), ("BBB", Cell.str "world")]] = [] ∧
    processStatement "KASPI" "statement.xlsx"
      (fun _ => kaspiExcelParse [[("AAA", Cell.str "hello"), ("BBB", Cell.str "world")]]) =
      ProcOutcome.completed [] ∧
    processStatement "KASPI" "statement.xlsx"
      (fun _ => kaspiExcelParse [[("AAA", Cell.str "hello"), ("BBB", Cell.str "world")]]) ≠
      ProcOutcome.failed := by
  with_unfolding_all decide

/-- Witness for `structure_not_recognized_amended` at a concrete
one-column, zero-amount table. -/
theorem structure_not_recognized_amended_witness :
    (truthyCol (excelCols [[("X", Cell.num 0)]]).dateCol &&
      truthyCol (excelCols [[("X", Cell.num 0)]]).amountCol) = false ∧
    kaspiExcelParse [[("X", Cell.num 0)]] = [] ∧
    processStatement "KASPI" "statement.xlsx"
      (fun _ => kaspiExcelParse [[("X", Cell.num 0)]]) = ProcOutcome.completed [] :=
  ⟨by with_unfolding_all decide,
   ((structure_not_recognized_amended [[("X", Cell.num 0)]]).1
     (by with_unfolding_all decide)).1,
   ((structure_not_recognized_amended [[("X", Cell.num 0)]]).1
     (by with_unfolding_all decide)).2⟩


end FinanceAnalyzer
